import Mathlib

/-!
Verification of the depthwise 1-D convolution operator implemented in
src/dwconv1d/depthwiseconv1d.py (class DepthwiseConv1D).

The operator is shallowly embedded: tensors of rank 3 are modelled as total
functions Nat → Nat → Nat → Int together with explicitly carried dimensions;
scalars are exact integers.  The TensorFlow primitives used by the source
(nn.depthwise_conv2d, array_ops.pad for causal padding, tf.tile,
backend.bias_add, conv_utils.conv_output_length) are modelled from their
documented TensorFlow semantics; fallible steps return Except String.
-/

namespace DWConv

/-- Rank-3 tensor of integers, as a total index function.  The value outside
the tensor extent is irrelevant junk unless stated otherwise. -/
abbrev T3 := Nat → Nat → Nat → Int

/-- Padding mode of the layer (constructor argument `padding`). -/
inductive Padding where
  | valid
  | same
  | causal
deriving DecidableEq, Repr

/-- Channel layout of the layer (constructor argument `data_format`). -/
inductive DataFormat where
  | channels_first
  | channels_last
deriving DecidableEq, Repr

/-- Configuration of a DepthwiseConv1D instance, as recorded by `__init__`
(src/dwconv1d/depthwiseconv1d.py lines 81-117).  `kernel_size` and `strides`
are the single components of the 1-tuples stored by the Conv1D base class.
The activation is the opaque elementwise function handle (`none` when no
activation is configured).  Initializer, regularizer and constraint policies
do not affect the computation and are not modelled. -/
structure Config where
  kernel_size : Nat
  strides : Nat
  padding : Padding
  common_kernel : Bool
  depth_multiplier : Nat
  data_format : DataFormat
  activation : Option (Int → Int)
  use_bias : Bool

/-- Weights held by a built layer: `self.channels`, `self.depthwise_kernel`
(logical shape (K, kernel_dim, M), indexed k, c, m) and `self.bias`
(logical shape (kernel_dim*M,)); `bias = none` models the Python `None`
assigned when `use_bias` is false (build, lines 144-151). -/
structure BuiltLayer where
  channels : Nat
  depthwise_kernel : Nat → Nat → Nat → Int
  bias : Option (Nat → Int)

/-- A layer produced by `build`: in the source, `self.bias` is a tensor
exactly when `use_bias` is set (lines 144-151). -/
def Built (cfg : Config) (w : BuiltLayer) : Prop :=
  w.bias.isSome = cfg.use_bias

instance (cfg : Config) (w : BuiltLayer) : Decidable (Built cfg w) := by
  unfold Built; infer_instance

/-- Zero padding on the spatial (second) axis: `p` zeros in front of an
extent-`L` signal, zeros beyond it (models array_ops.pad and the implicit
zero padding of the convolution; reads past the physical right padding never
occur in the windows taken below, so the infinite zero extension is
value-identical to TensorFlow's finite one). -/
def padT (p L : Nat) (x : T3) : T3 :=
  fun b t c => if p ≤ t ∧ t < p + L then x b (t - p) c else 0

/-- Amount of explicit causal pre-padding: `(kernel_size - 1) * dilation`
zeros on the left, dilation being 1 for this layer
(`self._compute_causal_padding`, used at call line 156-157); zero for the
other modes. -/
def causalPadAmt (cfg : Config) : Nat :=
  match cfg.padding with
  | Padding.causal => cfg.kernel_size - 1
  | _ => 0

/-- Padding mode handed to nn.depthwise_conv2d: `causal` is lowered to
`valid` after the explicit pre-padding (call, lines 184-187). -/
def opPadding (cfg : Config) : Padding :=
  match cfg.padding with
  | Padding.causal => Padding.valid
  | p => p

/-- Spatial length after the explicit causal pre-padding. -/
def paddedLen (cfg : Config) (L : Nat) : Nat :=
  L + causalPadAmt cfg

/-- Left padding added by the SAME mode of nn.depthwise_conv2d
(TensorFlow semantics: out = ceil(L/S), total = max((out-1)*S + K - L, 0),
left = total / 2, the extra element going to the right). -/
def samePadLeft (L K S : Nat) : Nat :=
  ((max ((((L + S - 1) / S : Nat) : Int) - 1) 0 * S + K - L).toNat) / 2

/-- Left padding applied by the convolution proper (zero for VALID). -/
def convPadLeft (cfg : Config) (L1 : Nat) : Nat :=
  match opPadding cfg with
  | Padding.same => samePadLeft L1 cfg.kernel_size cfg.strides
  | _ => 0

/-- Total left zero padding seen by the sliding window: causal pre-padding
plus the convolution's own SAME padding (at most one of the two is nonzero,
since causal mode runs the convolution in VALID mode). -/
def effPadLeft (cfg : Config) (L : Nat) : Nat :=
  causalPadAmt cfg + convPadLeft cfg (paddedLen cfg L)

/-- The padded input actually read by the sliding-window reduction. -/
def paddedInput (cfg : Config) (L : Nat) (x : T3) : T3 :=
  padT (effPadLeft cfg L) L x

/-- Output spatial length, following TensorFlow:
VALID: floor((L1 - K)/S) + 1 (meaningful when L1 + 1 >= K);
SAME: ceil(L1/S); L1 is the length after causal pre-padding. -/
def outputLength (cfg : Config) (L : Nat) : Nat :=
  match opPadding cfg with
  | Padding.valid => (paddedLen cfg L + cfg.strides - cfg.kernel_size) / cfg.strides
  | _ => (paddedLen cfg L + cfg.strides - 1) / cfg.strides

/-- Effective kernel and bias for the reduction (call, lines 168-176).
With `common_kernel` the stored (K,1,M) kernel is tiled by tf.tile with
multiples (1, channels, 1) — element (k,c,m) of the result is element
(k, c mod 1, m) of the stored kernel — and `self.bias` is tiled `channels`
times, element i becoming stored element i mod M.  tf.tile is applied to
`self.bias` unconditionally in this branch, so a `None` bias (use_bias
false) is a conversion error.  Without `common_kernel` the stored tensors
are used as-is. -/
def effectiveWeights (cfg : Config) (w : BuiltLayer) :
    Except String ((Nat → Nat → Nat → Int) × Option (Nat → Int)) :=
  if cfg.common_kernel = true then
    match w.bias with
    | none => Except.error "ValueError: Attempt to convert a value (None) with an unsupported type"
    | some b0 =>
        Except.ok (fun k c m => w.depthwise_kernel k (c % 1) m,
                   some (fun i => b0 (i % cfg.depth_multiplier)))
  else Except.ok (w.depthwise_kernel, w.bias)

/-- The depthwise sliding-window reduction of nn.depthwise_conv2d (height
dimension 1 squeezed away), in channels_last layout: output channel
j = c * M + m is the window dot product of input channel c = j / M with
filter column m = j % M of kernel channel c. -/
def dwReduce (cfg : Config) (L : Nat) (kf : Nat → Nat → Nat → Int) (x : T3) : T3 :=
  fun b t j =>
    ∑ k ∈ Finset.range cfg.kernel_size,
      paddedInput cfg L x b (t * cfg.strides + k) (j / cfg.depth_multiplier) *
        kf k (j / cfg.depth_multiplier) (j % cfg.depth_multiplier)

/-- backend.bias_add step (call, lines 191-192), guarded by `use_bias`. -/
def biasAdd (cfg : Config) (bf : Option (Nat → Int)) (o : T3) : Except String T3 :=
  if cfg.use_bias = true then
    match bf with
    | none => Except.error "ValueError: bias is None"
    | some b0 => Except.ok (fun b t j => o b t j + b0 j)
  else Except.ok o

/-- The configured activation applied elementwise (call, lines 194-195);
identity when none is configured. -/
def applyActivation (cfg : Config) (o : T3) : T3 :=
  match cfg.activation with
  | none => o
  | some a => fun b t j => a (o b t j)

/-- The configured activation on one scalar. -/
def actApply (cfg : Config) (v : Int) : Int :=
  match cfg.activation with
  | none => v
  | some a => a v

/-- Model of DepthwiseConv1D.call (lines 155-197) on the layout-independent
(batch, position, channel) view of the input: causal pre-padding, kernel and
bias tiling for the common-kernel case, nn.depthwise_conv2d (which rejects a
VALID window longer than the padded input), bias add, activation.  Returns
the output spatial length together with the output values. -/
def call (cfg : Config) (w : BuiltLayer) (L : Nat) (x : T3) :
    Except String (Nat × T3) :=
  match effectiveWeights cfg w with
  | Except.error e => Except.error e
  | Except.ok (kf, bf) =>
      if opPadding cfg = Padding.valid ∧ paddedLen cfg L + 1 < cfg.kernel_size then
        Except.error "ValueError: Negative dimension size caused by subtracting the kernel size from the padded input length"
      else
        match biasAdd cfg bf (dwReduce cfg L kf x) with
        | Except.error e => Except.error e
        | Except.ok o => Except.ok (outputLength cfg L, applyActivation cfg o)

/-- Logical (batch, length, channels) dimensions of a raw rank-3 shape. -/
def logicalDims (cfg : Config) (shp : Nat × Nat × Nat) : Nat × Nat × Nat :=
  match cfg.data_format with
  | DataFormat.channels_first => (shp.1, shp.2.2, shp.2.1)
  | DataFormat.channels_last => shp

/-- Logical (batch, position, channel) view of a raw input tensor. -/
def logicalIn (cfg : Config) (y : T3) : T3 :=
  match cfg.data_format with
  | DataFormat.channels_first => fun b t c => y b c t
  | DataFormat.channels_last => y

/-- Store a logical (batch, position, channel) result in raw layout. -/
def rawOut (cfg : Config) (f : T3) : T3 :=
  match cfg.data_format with
  | DataFormat.channels_first => fun b j t => f b t j
  | DataFormat.channels_last => f

/-- Logical (batch, position, channel) view of a raw output tensor. -/
def logicalOut (cfg : Config) (g : T3) : T3 :=
  match cfg.data_format with
  | DataFormat.channels_first => fun b t j => g b j t
  | DataFormat.channels_last => g

/-- Raw output shape: batch preserved, channel axis multiplied by the depth
multiplier, spatial axis given by `outputLength`. -/
def rawOutShape (cfg : Config) (shp : Nat × Nat × Nat) : Nat × Nat × Nat :=
  match cfg.data_format with
  | DataFormat.channels_first =>
      (shp.1, shp.2.1 * cfg.depth_multiplier, outputLength cfg shp.2.2)
  | DataFormat.channels_last =>
      (shp.1, outputLength cfg shp.2.1, shp.2.2 * cfg.depth_multiplier)

/-- A forward invocation of the built layer on a raw tensor of raw shape
`shp`: Keras first enforces the InputSpec recorded by build (rank 3, channel
axis equal to the build-time channel count, line 152), then runs `call`. -/
def forward (cfg : Config) (w : BuiltLayer) (shp : Nat × Nat × Nat) (y : T3) :
    Except String ((Nat × Nat × Nat) × T3) :=
  if (logicalDims cfg shp).2.2 ≠ w.channels then
    Except.error "ValueError: Input incompatible with layer: expected channel axis to have the value recorded at build time"
  else
    match call cfg w (logicalDims cfg shp).2.1 (logicalIn cfg y) with
    | Except.error e => Except.error e
    | Except.ok (n, f) =>
        Except.ok
          (match cfg.data_format with
           | DataFormat.channels_first =>
               (shp.1, (logicalDims cfg shp).2.2 * cfg.depth_multiplier, n)
           | DataFormat.channels_last =>
               (shp.1, n, (logicalDims cfg shp).2.2 * cfg.depth_multiplier),
           rawOut cfg f)

/-- Effective bias read by output channel j in the claim formula:
the stored bias at j, or at j mod M after tiling in the common-kernel case;
zero when `use_bias` is not set. -/
def biasFn (w : BuiltLayer) : Nat → Int :=
  w.bias.getD (fun _ => 0)

/-- Spatial extent of a raw rank-3 shape. -/
def spatialDim (cfg : Config) (s : Nat × Nat × Nat) : Nat :=
  match cfg.data_format with
  | DataFormat.channels_first => s.2.2
  | DataFormat.channels_last => s.2.1

/-- A configuration pairing common_kernel = true with use_bias = false. -/
def cfgNB : Config :=
  { kernel_size := 1, strides := 1, padding := Padding.valid,
    common_kernel := true, depth_multiplier := 1,
    data_format := DataFormat.channels_last, activation := none,
    use_bias := false }

/-- The layer `build` produces for `cfgNB` on one channel (no bias tensor). -/
def wNB : BuiltLayer :=
  { channels := 1, depthwise_kernel := fun _ _ _ => 1, bias := none }

/-- An all-ones input. -/
def yNB : T3 := fun _ _ _ => 1

/-- A small separate-kernel configuration used by witnesses. -/
def cfgA : Config :=
  { kernel_size := 2, strides := 1, padding := Padding.valid,
    common_kernel := false, depth_multiplier := 1,
    data_format := DataFormat.channels_last, activation := none,
    use_bias := true }

/-- A one-channel built layer with kernel column (1, 2) and bias 5. -/
def wA : BuiltLayer :=
  { channels := 1, depthwise_kernel := fun k _ _ => (k : Int) + 1,
    bias := some (fun _ => 5) }

/-- The input whose value at spatial position t is t. -/
def yA : T3 := fun _ t _ => (t : Int)

/-- The 'same', stride-1 configuration used by the C6 witness. -/
def cfgS : Config :=
  { kernel_size := 3, strides := 1, padding := Padding.same,
    common_kernel := false, depth_multiplier := 1,
    data_format := DataFormat.channels_last, activation := none,
    use_bias := true }

/-- The common-kernel configuration used by the C4 witness. -/
def cfgCK : Config :=
  { kernel_size := 2, strides := 1, padding := Padding.valid,
    common_kernel := true, depth_multiplier := 1,
    data_format := DataFormat.channels_last, activation := none,
    use_bias := true }

/-- The shared (K,1,M) filter bank of the C4 witness. -/
def wCK : Nat → Nat → Nat → Int := fun k _ _ => (k : Int) + 1

/-- The shared (M,) bias of the C4 witness. -/
def bCK : Nat → Int := fun _ => 3

/-- The separate-kernel layer obtained by replicating wNB's shared filter,
with no bias, used by the C4 counterexample. -/
def wNBsep : BuiltLayer :=
  { channels := 1,
    depthwise_kernel := fun k c m => wNB.depthwise_kernel k (c % 1) m,
    bias := none }

/-- The slice of a forward result at one output position (logical view):
the surviving data is a function of batch index and output channel. -/
def forwardAtPos (cfg : Config) (w : BuiltLayer) (shp : Nat × Nat × Nat)
    (y : T3) (t : Nat) : Except String (Nat → Nat → Int) :=
  (forward cfg w shp y).map (fun p => fun b j => logicalOut cfg p.2 b t j)

/-- The causal stride-2 configuration used for C5. -/
def cfg5 : Config :=
  { kernel_size := 1, strides := 2, padding := Padding.causal,
    common_kernel := false, depth_multiplier := 1,
    data_format := DataFormat.channels_last, activation := none,
    use_bias := false }

/-- A one-channel layer with the identity filter and no bias. -/
def w5 : BuiltLayer :=
  { channels := 1, depthwise_kernel := fun _ _ _ => 1, bias := none }

/-- The input whose value at position t is t. -/
def y5a : T3 := fun _ t _ => (t : Int)

/-- `y5a` with position 2 changed to 5. -/
def y5b : T3 := fun _ t _ => if t = 2 then 5 else (t : Int)

/-- The input whose value at position t is t, on a longer extent. -/
def y6a : T3 := fun _ t _ => (t : Int)

/-- `y6a` with every position from 3 on changed to 9. -/
def y6b : T3 := fun _ t _ => if 3 ≤ t then 9 else (t : Int)

/-- The slice of a forward result at one output channel (logical view):
the surviving data is a function of batch index and output position. -/
def forwardAtChan (cfg : Config) (w : BuiltLayer) (shp : Nat × Nat × Nat)
    (y : T3) (j : Nat) : Except String (Nat → Nat → Int) :=
  (forward cfg w shp y).map (fun p => fun b t => logicalOut cfg p.2 b t j)

/-- First of a pair of two-channel layers differing only in channel 1. -/
def wP1 : BuiltLayer :=
  { channels := 2, depthwise_kernel := fun k c _ => (k : Int) + 1 + c,
    bias := some (fun _ => 5) }

/-- Second of the pair: the kernel slice of channel 1 is replaced. -/
def wP2 : BuiltLayer :=
  { channels := 2, depthwise_kernel := fun k c _ => if c = 1 then 7 else (k : Int) + 1 + c,
    bias := some (fun _ => 5) }

/-- Python sequence indexing with a possibly negative index, as used on the
dims of a rank-checked TensorShape: nonnegative indices count from the
front, negative ones from the back, out-of-range is an IndexError (none). -/
def pyGet (l : List (Option Nat)) (i : Int) : Option (Option Nat) :=
  if 0 ≤ i then l.get? i.toNat
  else if (-i).toNat ≤ l.length then l.get? (l.length - (-i).toNat) else none

/-- `_get_channel_axis` (lines 119-124): axis 1 for channels_first and
axis -1 otherwise. -/
def channel_axis (cfg : Config) : Int :=
  match cfg.data_format with
  | DataFormat.channels_first => 1
  | DataFormat.channels_last => -1

/-- The observable effect of a successful build (lines 126-153): the
recorded channel count, the shape of the allocated depthwise kernel, the
shape of the allocated bias (none when use_bias is off), and the built
flag. -/
structure BuildResult where
  channels : Nat
  kernel_shape : Nat × Nat × Nat
  bias_shape : Option Nat
  built : Bool
deriving DecidableEq, Repr

/-- Model of DepthwiseConv1D.build (lines 126-153) at the shape level: a
rank other than 3 raises, an unknown channel dimension (None at the channel
axis) raises, otherwise channels = input_dim is recorded, the kernel gets
shape (kernel_size, kernel_dim, depth_multiplier) with kernel_dim = 1 when
common_kernel else input_dim, the bias gets shape (kernel_dim *
depth_multiplier,) exactly when use_bias, and the layer is marked built. -/
def build (cfg : Config) (input_shape : List (Option Nat)) :
    Except String BuildResult :=
  if input_shape.length ≠ 3 then
    Except.error "ValueError: Inputs to DepthwiseConv1D should have rank 3"
  else
    match pyGet input_shape (channel_axis cfg) with
    | some (some input_dim) =>
        Except.ok
          { channels := input_dim,
            kernel_shape := (cfg.kernel_size,
              if cfg.common_kernel = true then 1 else input_dim,
              cfg.depth_multiplier),
            bias_shape := if cfg.use_bias = true then
              some ((if cfg.common_kernel = true then 1 else input_dim) *
                cfg.depth_multiplier)
              else none,
            built := true }
    | some none =>
        Except.error "ValueError: The channel dimension of the inputs to DepthwiseConv1D should be defined. Found None."
    | none => Except.error "IndexError: tuple index out of range"

/-- A Python value as handled by the shape-inference helpers: None, an
int, or a tuple of ints. -/
inductive PyVal where
  | pynone
  | pyint (n : Int)
  | pytup (xs : List Int)
deriving DecidableEq, Repr

/-- Python subtraction on these values: int - int only; a tuple or None
operand is a TypeError. -/
def pySub : PyVal → PyVal → Except String PyVal
  | PyVal.pyint a, PyVal.pyint b => Except.ok (PyVal.pyint (a - b))
  | _, _ => Except.error "TypeError: unsupported operand type(s) for -"

/-- Python addition: int + int adds, tuple + tuple concatenates, anything
else is a TypeError. -/
def pyAdd : PyVal → PyVal → Except String PyVal
  | PyVal.pyint a, PyVal.pyint b => Except.ok (PyVal.pyint (a + b))
  | PyVal.pytup a, PyVal.pytup b => Except.ok (PyVal.pytup (a ++ b))
  | _, _ => Except.error "TypeError: unsupported operand type(s) for +"

/-- Python multiplication: int * int multiplies, tuple * int and int *
tuple replicate the tuple, anything else is a TypeError. -/
def pyMul : PyVal → PyVal → Except String PyVal
  | PyVal.pyint a, PyVal.pyint b => Except.ok (PyVal.pyint (a * b))
  | PyVal.pytup a, PyVal.pyint n =>
      Except.ok (PyVal.pytup (List.flatten (List.replicate n.toNat a)))
  | PyVal.pyint n, PyVal.pytup a =>
      Except.ok (PyVal.pytup (List.flatten (List.replicate n.toNat a)))
  | _, _ => Except.error "TypeError: unsupported operand type(s) for *"

/-- Python floor division: int // int (rejecting a zero divisor), anything
else is a TypeError. -/
def pyFloorDiv : PyVal → PyVal → Except String PyVal
  | PyVal.pyint a, PyVal.pyint b =>
      if b = 0 then
        Except.error "ZeroDivisionError: integer division or modulo by zero"
      else Except.ok (PyVal.pyint (Int.fdiv a b))
  | _, _ => Except.error "TypeError: unsupported operand type(s) for //"

/-- Model of keras conv_utils.conv_output_length(input_length, filter_size,
padding, stride), default dilation 1, at the Python-value level:
a None input length short-circuits to None; otherwise
dilated_filter_size = filter_size + (filter_size - 1) * (dilation - 1),
output_length is the input length for same/causal and
input_length - dilated_filter_size + 1 for valid, and the result is
(output_length + stride - 1) // stride. -/
def conv_output_length (input_length filter_size : PyVal) (padding : Padding)
    (stride : PyVal) : Except String PyVal :=
  match input_length with
  | PyVal.pynone => Except.ok PyVal.pynone
  | _ => do
      let t1 ← pySub filter_size (PyVal.pyint 1)
      let t2 ← pyMul t1 (PyVal.pyint 0)
      let dilated ← pyAdd filter_size t2
      let outl ← match padding with
        | Padding.valid => do
            let u ← pySub input_length dilated
            pyAdd u (PyVal.pyint 1)
        | _ => pure input_length
      let v1 ← pyAdd outl stride
      let v2 ← pySub v1 (PyVal.pyint 1)
      pyFloorDiv v2 stride

/-- Model of DepthwiseConv1D.compute_output_shape (lines 199-215) after
@tf_utils.shape_type_conversion: dimensions arrive as Python ints or None.
The spatial dimension and the channel dimension are selected by layout, the
channel dimension is multiplied by depth_multiplier, and the new length is
delegated to conv_output_length — to which the source passes the whole
1-tuples self.kernel_size and self.strides, not their single elements. -/
def compute_output_shape (cfg : Config) (input_shape : PyVal × PyVal × PyVal) :
    Except String (PyVal × PyVal × PyVal) := do
  let length := match cfg.data_format with
    | DataFormat.channels_first => input_shape.2.2
    | DataFormat.channels_last => input_shape.2.1
  let chdim := match cfg.data_format with
    | DataFormat.channels_first => input_shape.2.1
    | DataFormat.channels_last => input_shape.2.2
  let out_filters ← pyMul chdim (PyVal.pyint cfg.depth_multiplier)
  let length_new ← conv_output_length length (PyVal.pytup [(cfg.kernel_size : Int)])
    cfg.padding (PyVal.pytup [(cfg.strides : Int)])
  match cfg.data_format with
  | DataFormat.channels_first => Except.ok (input_shape.1, out_filters, length_new)
  | DataFormat.channels_last => Except.ok (input_shape.1, length_new, out_filters)

/-- The three-channel configuration and layer used to exercise C2. -/
def cfgA3 : Config :=
  { kernel_size := 3, strides := 1, padding := Padding.valid,
    common_kernel := false, depth_multiplier := 1,
    data_format := DataFormat.channels_last, activation := none,
    use_bias := true }

/-- A three-channel layer with a constant kernel and zero bias. -/
def wA3 : BuiltLayer :=
  { channels := 3, depthwise_kernel := fun _ _ _ => 1, bias := some (fun _ => 0) }

/-- The keys of the configuration dict returned by the Conv base class
get_config, modelled from keras Conv.get_config. -/
def conv_base_config_keys : List String :=
  ["name", "trainable", "dtype", "filters", "kernel_size", "strides",
   "padding", "data_format", "dilation_rate", "groups", "activation",
   "use_bias", "kernel_initializer", "bias_initializer",
   "kernel_regularizer", "bias_regularizer", "activity_regularizer",
   "kernel_constraint", "bias_constraint"]

/-- The global names bound in src/dwconv1d/depthwiseconv1d.py that name
resolution can see from inside get_config: the class defined by the module
and the imports at its top.  DepthwiseConv2D is neither defined nor
imported. -/
def module_globals : List String :=
  ["DepthwiseConv1D", "tf", "tensor_shape", "models", "layers",
   "initializers", "regularizers", "constraints", "Conv1D", "InputSpec",
   "conv_utils", "tf_utils", "backend", "array_ops", "nn", "nn_ops",
   "keras_export"]

/-- Model of DepthwiseConv1D.get_config (lines 217-227): the body first
evaluates the name DepthwiseConv2D (in super(DepthwiseConv2D, self)),
resolved against the module globals; had it resolved, the method would pop
filters and the standard kernel initializer/regularizer/constraint keys
from the base configuration and add the depth_multiplier and depthwise
fields. -/
def get_config (_cfg : Config) : Except String (List String) :=
  if module_globals.contains "DepthwiseConv2D" then
    Except.ok ((((conv_base_config_keys.erase "filters").erase
      "kernel_initializer").erase "kernel_regularizer").erase
      "kernel_constraint" ++
      ["depth_multiplier", "depthwise_initializer", "depthwise_regularizer",
       "depthwise_constraint"])
  else Except.error "NameError: name DepthwiseConv2D is not defined"

theorem applyActivation_eq (cfg : Config) (o : T3) :
    applyActivation cfg o = fun b t j => actApply cfg (o b t j) := by
  funext b t j
  cases h : cfg.activation <;> simp [applyActivation, actApply, h]

theorem effectiveWeights_sep (cfg : Config) (w : BuiltLayer)
    (hc : cfg.common_kernel = false) :
    effectiveWeights cfg w = Except.ok (w.depthwise_kernel, w.bias) := by
  simp [effectiveWeights, hc]

theorem effectiveWeights_common (cfg : Config) (w : BuiltLayer) (b0 : Nat → Int)
    (hc : cfg.common_kernel = true) (hb : w.bias = some b0) :
    effectiveWeights cfg w =
      Except.ok (fun k c m => w.depthwise_kernel k (c % 1) m,
                 some (fun i => b0 (i % cfg.depth_multiplier))) := by
  simp [effectiveWeights, hc, hb]

/-- Master evaluation lemma: whenever the bias tensor is present in the
configurations that read it and the VALID window fits, `call` succeeds and
every output cell is the activation of the window dot product plus the
effective bias. -/
theorem call_eval (cfg : Config) (w : BuiltLayer) (L : Nat) (x : T3)
    (hcb : cfg.common_kernel = true → w.bias.isSome = true)
    (hub : cfg.use_bias = true → w.bias.isSome = true)
    (hv : opPadding cfg = Padding.valid → cfg.kernel_size ≤ paddedLen cfg L + 1) :
    call cfg w L x = Except.ok (outputLength cfg L, fun b t j =>
      actApply cfg
        ((∑ k ∈ Finset.range cfg.kernel_size,
            paddedInput cfg L x b (t * cfg.strides + k) (j / cfg.depth_multiplier) *
              w.depthwise_kernel k
                (if cfg.common_kernel = true then 0 else j / cfg.depth_multiplier)
                (j % cfg.depth_multiplier))
         + (if cfg.use_bias = true then
              biasFn w (if cfg.common_kernel = true then j % cfg.depth_multiplier else j)
            else 0))) := by
  have hguard : ¬ (opPadding cfg = Padding.valid ∧ paddedLen cfg L + 1 < cfg.kernel_size) := by
    rintro ⟨h1, h2⟩
    exact absurd (hv h1) (by omega)
  cases hck : cfg.common_kernel with
  | false =>
      cases hub' : cfg.use_bias with
      | false =>
          simp only [call, effectiveWeights_sep cfg w hck, if_neg hguard, biasAdd, hub',
            Bool.false_eq_true, if_false, Except.ok.injEq, Prod.mk.injEq, true_and]
          rw [applyActivation_eq]
          funext b t j
          simp [dwReduce, hck]
      | true =>
          obtain ⟨b0, hb0⟩ := Option.isSome_iff_exists.mp (hub hub')
          simp only [call, effectiveWeights_sep cfg w hck, if_neg hguard, biasAdd, hub',
            hb0, if_true, Except.ok.injEq, Prod.mk.injEq, true_and]
          rw [applyActivation_eq]
          funext b t j
          simp [dwReduce, hck, biasFn, hb0]
  | true =>
      obtain ⟨b0, hb0⟩ := Option.isSome_iff_exists.mp (hcb hck)
      cases hub' : cfg.use_bias with
      | false =>
          simp only [call, effectiveWeights_common cfg w b0 hck hb0, if_neg hguard, biasAdd,
            hub', Bool.false_eq_true, if_false, Except.ok.injEq, Prod.mk.injEq, true_and]
          rw [applyActivation_eq]
          funext b t j
          simp [dwReduce, hck, Nat.mod_one]
      | true =>
          simp only [call, effectiveWeights_common cfg w b0 hck hb0, if_neg hguard, biasAdd,
            hub', if_true, Except.ok.injEq, Prod.mk.injEq, true_and]
          rw [applyActivation_eq]
          funext b t j
          simp [dwReduce, hck, Nat.mod_one, biasFn, hb0]

theorem logicalOut_rawOut (cfg : Config) (g : T3) :
    logicalOut cfg (rawOut cfg g) = g := by
  cases h : cfg.data_format <;> simp [logicalOut, rawOut, h]

theorem built_bias_common (cfg : Config) (w : BuiltLayer) (hbuilt : Built cfg w)
    (hok : ¬(cfg.common_kernel = true ∧ cfg.use_bias = false)) :
    cfg.common_kernel = true → w.bias.isSome = true := by
  intro h
  have hb : w.bias.isSome = cfg.use_bias := hbuilt
  cases hu : cfg.use_bias with
  | false => exact absurd ⟨h, hu⟩ hok
  | true => rw [hb, hu]

theorem built_bias_use (cfg : Config) (w : BuiltLayer) (hbuilt : Built cfg w) :
    cfg.use_bias = true → w.bias.isSome = true := by
  intro h
  have hb : w.bias.isSome = cfg.use_bias := hbuilt
  rw [hb, h]

/-- Forward-level evaluation lemma: with the bias tensor present where it is
read and the VALID window fitting, a forward call succeeds, returns the
shape given by `rawOutShape`, and each output cell is the activation of the
window dot product plus the effective bias. -/
theorem forward_eval (cfg : Config) (w : BuiltLayer) (shp : Nat × Nat × Nat) (y : T3)
    (hcb : cfg.common_kernel = true → w.bias.isSome = true)
    (hub : cfg.use_bias = true → w.bias.isSome = true)
    (hv : opPadding cfg = Padding.valid →
      cfg.kernel_size ≤ paddedLen cfg (logicalDims cfg shp).2.1 + 1)
    (hch : (logicalDims cfg shp).2.2 = w.channels) :
    forward cfg w shp y = Except.ok (rawOutShape cfg shp,
      rawOut cfg (fun b t j =>
        actApply cfg
          ((∑ k ∈ Finset.range cfg.kernel_size,
              paddedInput cfg (logicalDims cfg shp).2.1 (logicalIn cfg y) b
                  (t * cfg.strides + k) (j / cfg.depth_multiplier) *
                w.depthwise_kernel k
                  (if cfg.common_kernel = true then 0 else j / cfg.depth_multiplier)
                  (j % cfg.depth_multiplier))
           + (if cfg.use_bias = true then
                biasFn w (if cfg.common_kernel = true then j % cfg.depth_multiplier else j)
              else 0)))) := by
  unfold forward
  rw [if_neg (by simp [hch]), call_eval cfg w _ _ hcb hub hv]
  cases hdf : cfg.data_format <;>
    simp [rawOutShape, rawOut, logicalDims, hdf]

/-- C1 (amended): for every built operator whose configuration does not pair
common_kernel = true with use_bias = false, and every conforming rank-3
input long enough for the VALID window, the forward computation returns, at
batch b, output position t and output channel c*M + m, the sum over
k < K of input_padded[b, t*S + k, c] * kernel[k, c or 0, m], plus the
(possibly tiled) bias entry for channel c*M + m when use_bias is set, with
the configured activation (identity if none) applied afterwards. -/
theorem forward_depthwise_formula (cfg : Config) (w : BuiltLayer)
    (shp : Nat × Nat × Nat) (y : T3)
    (hbuilt : Built cfg w)
    (hok : ¬(cfg.common_kernel = true ∧ cfg.use_bias = false))
    (hch : (logicalDims cfg shp).2.2 = w.channels)
    (hv : cfg.padding = Padding.valid →
      cfg.kernel_size ≤ (logicalDims cfg shp).2.1 + 1) :
    ∃ f, forward cfg w shp y = Except.ok (rawOutShape cfg shp, f) ∧
      ∀ b t c m, t < outputLength cfg (logicalDims cfg shp).2.1 →
        c < w.channels → m < cfg.depth_multiplier →
        logicalOut cfg f b t (c * cfg.depth_multiplier + m) =
          actApply cfg
            ((∑ k ∈ Finset.range cfg.kernel_size,
                paddedInput cfg (logicalDims cfg shp).2.1 (logicalIn cfg y) b
                    (t * cfg.strides + k) c *
                  w.depthwise_kernel k (if cfg.common_kernel = true then 0 else c) m)
             + (if cfg.use_bias = true then
                  biasFn w (if cfg.common_kernel = true then m
                            else c * cfg.depth_multiplier + m)
                else 0)) := by
  have hv' : opPadding cfg = Padding.valid →
      cfg.kernel_size ≤ paddedLen cfg (logicalDims cfg shp).2.1 + 1 := by
    intro hop
    cases hp : cfg.padding with
    | valid =>
        have := hv hp
        simp only [paddedLen, causalPadAmt, hp]
        omega
    | same => simp [opPadding, hp] at hop
    | causal =>
        simp only [paddedLen, causalPadAmt, hp]
        omega
  refine ⟨_, forward_eval cfg w shp y (built_bias_common cfg w hbuilt hok)
    (built_bias_use cfg w hbuilt) hv' hch, ?_⟩
  intro b t c m ht hc hm
  have hM : 0 < cfg.depth_multiplier := by omega
  have hdiv : (c * cfg.depth_multiplier + m) / cfg.depth_multiplier = c := by
    rw [mul_comm, Nat.mul_add_div hM, Nat.div_eq_of_lt hm, add_zero]
  have hmod : (c * cfg.depth_multiplier + m) % cfg.depth_multiplier = m := by
    rw [mul_comm, Nat.mul_add_mod, Nat.mod_eq_of_lt hm]
  rw [logicalOut_rawOut]
  simp only [hdiv, hmod]

/-- C1 counterexample: a built operator with common_kernel = true and
use_bias = false does not return the specified value on a conforming input;
the forward computation fails because tf.tile is applied to the missing
bias. -/
theorem forward_formula_fails_common_nobias :
    forward cfgNB wNB (1, 1, 1) yNB =
      Except.error "ValueError: Attempt to convert a value (None) with an unsupported type" := rfl

/-- Witness for C1's amended theorem at a concrete operator and input:
output position 1 holds 1*1 + 2*2 + 5 = 10. -/
theorem forward_depthwise_formula_witness :
    ∃ f, forward cfgA wA (1, 3, 1) yA = Except.ok (rawOutShape cfgA (1, 3, 1), f) ∧
      logicalOut cfgA f 0 1 0 = 10 := by
  obtain ⟨f, hf, hval⟩ := forward_depthwise_formula cfgA wA (1, 3, 1) yA
    (by decide) (by decide) rfl (by decide)
  refine ⟨f, hf, ?_⟩
  have h := hval 0 1 0 0 (by decide) (by decide) (by decide)
  simp only [zero_mul, zero_add] at h
  rw [h]
  decide

/-- C8: a forward call whose input channel dimension differs from the
channel count recorded at build time fails with a shape error. -/
theorem forward_channel_mismatch_errors (cfg : Config) (w : BuiltLayer)
    (shp : Nat × Nat × Nat) (y : T3)
    (h : (logicalDims cfg shp).2.2 ≠ w.channels) :
    forward cfg w shp y =
      Except.error "ValueError: Input incompatible with layer: expected channel axis to have the value recorded at build time" := by
  unfold forward
  rw [if_pos h]

/-- Witness for C8: a two-channel input against a layer built for one
channel is rejected. -/
theorem forward_channel_mismatch_errors_witness :
    forward cfgA wA (1, 3, 2) yA =
      Except.error "ValueError: Input incompatible with layer: expected channel axis to have the value recorded at build time" :=
  forward_channel_mismatch_errors cfgA wA (1, 3, 2) yA (by decide)

/-- C10: every forward call of a built operator configured with
common_kernel = true and use_bias = false fails with an error, because the
common-kernel branch tiles the bias tensor that was never allocated. -/
theorem common_nobias_forward_errors (cfg : Config) (w : BuiltLayer)
    (shp : Nat × Nat × Nat) (y : T3)
    (hc : cfg.common_kernel = true) (hu : cfg.use_bias = false)
    (hbuilt : Built cfg w) :
    ∃ e, forward cfg w shp y = Except.error e := by
  have hbn : w.bias = none := by
    have hb : w.bias.isSome = cfg.use_bias := hbuilt
    cases hx : w.bias with
    | none => rfl
    | some b0 => rw [hx, hu] at hb; simp at hb
  unfold forward
  by_cases hch : (logicalDims cfg shp).2.2 ≠ w.channels
  · rw [if_pos hch]; exact ⟨_, rfl⟩
  · rw [if_neg hch]
    have hcall : call cfg w (logicalDims cfg shp).2.1 (logicalIn cfg y) =
        Except.error "ValueError: Attempt to convert a value (None) with an unsupported type" := by
      simp [call, effectiveWeights, hc, hbn]
    rw [hcall]
    exact ⟨_, rfl⟩

/-- Witness for C10 at a concrete operator and input. -/
theorem common_nobias_forward_errors_witness :
    ∃ e, forward cfgNB wNB (2, 5, 1) yNB = Except.error e :=
  common_nobias_forward_errors cfgNB wNB (2, 5, 1) yNB rfl rfl (by decide)

/-- C6: with padding 'same' and stride 1, a forward call on a conforming
input of spatial length L succeeds and its output spatial length is
exactly L. -/
theorem same_stride_one_length (cfg : Config) (w : BuiltLayer)
    (shp : Nat × Nat × Nat) (y : T3)
    (hs : cfg.padding = Padding.same) (h1 : cfg.strides = 1)
    (hbuilt : Built cfg w)
    (hok : ¬(cfg.common_kernel = true ∧ cfg.use_bias = false))
    (hch : (logicalDims cfg shp).2.2 = w.channels) :
    ∃ f, forward cfg w shp y = Except.ok (rawOutShape cfg shp, f) ∧
      spatialDim cfg (rawOutShape cfg shp) = spatialDim cfg shp := by
  refine ⟨_, forward_eval cfg w shp y (built_bias_common cfg w hbuilt hok)
    (built_bias_use cfg w hbuilt) (by intro hop; simp [opPadding, hs] at hop) hch, ?_⟩
  have hlen : ∀ L, outputLength cfg L = L := by
    intro L
    simp [outputLength, opPadding, hs, h1, paddedLen, causalPadAmt]
  cases hdf : cfg.data_format <;>
    simp [spatialDim, rawOutShape, logicalDims, hdf, hlen]

/-- Witness for C6: a length-4 input yields a length-4 output. -/
theorem same_stride_one_length_witness :
    ∃ f, forward cfgS wA (1, 4, 1) yA = Except.ok (rawOutShape cfgS (1, 4, 1), f) ∧
      spatialDim cfgS (rawOutShape cfgS (1, 4, 1)) = spatialDim cfgS (1, 4, 1) :=
  same_stride_one_length cfgS wA (1, 4, 1) yA rfl rfl (by decide) (by decide) rfl

/-- C4 (amended): when use_bias is set, an operator with common_kernel =
true holding the (K,1,M) kernel W and the (M,) bias produces output
identical to an operator with common_kernel = false holding W replicated
along the channel axis and the bias tiled, all other configuration equal. -/
theorem common_kernel_equivalence (cfg : Config) (C0 : Nat)
    (W : Nat → Nat → Nat → Int) (b0 : Nat → Int)
    (shp : Nat × Nat × Nat) (y : T3)
    (hc : cfg.common_kernel = true) (_hub : cfg.use_bias = true) :
    forward cfg { channels := C0, depthwise_kernel := W, bias := some b0 } shp y =
      forward { cfg with common_kernel := false }
        { channels := C0, depthwise_kernel := fun k c m => W k (c % 1) m,
          bias := some (fun i => b0 (i % cfg.depth_multiplier)) } shp y := by
  unfold forward call
  rw [effectiveWeights_common cfg _ b0 hc rfl,
      effectiveWeights_sep { cfg with common_kernel := false } _ rfl]
  rfl

/-- Witness for C4's amended theorem at a concrete operator and input. -/
theorem common_kernel_equivalence_witness :
    forward cfgCK { channels := 1, depthwise_kernel := wCK, bias := some bCK }
        (1, 3, 1) yA =
      forward { cfgCK with common_kernel := false }
        { channels := 1, depthwise_kernel := fun k c m => wCK k (c % 1) m,
          bias := some (fun i => bCK (i % cfgCK.depth_multiplier)) } (1, 3, 1) yA :=
  common_kernel_equivalence cfgCK 1 wCK bCK (1, 3, 1) yA rfl rfl

/-- C4 counterexample: with use_bias = false, the built common-kernel
operator fails on forward while the replicated separate-kernel operator
returns an output, so the two are not identical. -/
theorem common_kernel_equivalence_fails_without_bias :
    forward cfgNB wNB (1, 1, 1) yNB ≠
      forward { cfgNB with common_kernel := false } wNBsep (1, 1, 1) yNB := by
  intro h
  have h1 : forward cfgNB wNB (1, 1, 1) yNB =
      Except.error "ValueError: Attempt to convert a value (None) with an unsupported type" := rfl
  have h2 : ∃ r, forward { cfgNB with common_kernel := false } wNBsep (1, 1, 1) yNB =
      Except.ok r := ⟨_, rfl⟩
  obtain ⟨r, hr⟩ := h2
  rw [h1, hr] at h
  exact Except.noConfusion h

theorem forwardAtPos_eq_call (cfg : Config) (w : BuiltLayer)
    (shp : Nat × Nat × Nat) (y : T3) (t : Nat)
    (hch : (logicalDims cfg shp).2.2 = w.channels) :
    forwardAtPos cfg w shp y t =
      (call cfg w (logicalDims cfg shp).2.1 (logicalIn cfg y)).map
        (fun p => fun b j => p.2 b t j) := by
  unfold forwardAtPos forward
  rw [if_neg (by simp [hch])]
  cases hc : call cfg w (logicalDims cfg shp).2.1 (logicalIn cfg y) with
  | error e => rfl
  | ok p =>
      obtain ⟨n, f⟩ := p
      simp [Except.map, logicalOut_rawOut]

theorem call_pos_agree (cfg : Config) (w : BuiltLayer) (L : Nat)
    (x1 x2 : T3) (t : Nat)
    (hp : cfg.padding = Padding.causal)
    (hagree : ∀ b u c, u ≤ t * cfg.strides → x1 b u c = x2 b u c) :
    (call cfg w L x1).map (fun p => fun b j => p.2 b t j) =
      (call cfg w L x2).map (fun p => fun b j => p.2 b t j) := by
  have hpad : effPadLeft cfg L = cfg.kernel_size - 1 := by
    simp [effPadLeft, causalPadAmt, convPadLeft, opPadding, hp]
  have hred : ∀ kf b j, dwReduce cfg L kf x1 b t j = dwReduce cfg L kf x2 b t j := by
    intro kf b j
    unfold dwReduce
    apply Finset.sum_congr rfl
    intro k hk
    have hk' : k < cfg.kernel_size := Finset.mem_range.mp hk
    have hpi : paddedInput cfg L x1 b (t * cfg.strides + k) (j / cfg.depth_multiplier) =
        paddedInput cfg L x2 b (t * cfg.strides + k) (j / cfg.depth_multiplier) := by
      unfold paddedInput padT
      by_cases hin : effPadLeft cfg L ≤ t * cfg.strides + k ∧
          t * cfg.strides + k < effPadLeft cfg L + L
      · rw [if_pos hin, if_pos hin]
        exact hagree b _ _ (by omega)
      · rw [if_neg hin, if_neg hin]
    rw [hpi]
  unfold call
  cases hew : effectiveWeights cfg w with
  | error e => rfl
  | ok p =>
      obtain ⟨kf, bf⟩ := p
      dsimp only
      by_cases hg : opPadding cfg = Padding.valid ∧ paddedLen cfg L + 1 < cfg.kernel_size
      · rw [if_pos hg, if_pos hg]
      · rw [if_neg hg, if_neg hg]
        unfold biasAdd
        cases hub : cfg.use_bias with
        | false =>
            simp only [Bool.false_eq_true, if_false, Except.map]
            rw [applyActivation_eq, applyActivation_eq]
            exact congrArg _ (funext fun b => funext fun j => by
              dsimp only
              rw [hred kf b j])
        | true =>
            cases bf with
            | none => rfl
            | some bb =>
                simp only [if_true, Except.map]
                rw [applyActivation_eq, applyActivation_eq]
                exact congrArg _ (funext fun b => funext fun j => by
                  dsimp only
                  rw [hred kf b j])

/-- C5 (amended): for padding 'causal', the forward output at position t is
unchanged under arbitrary modification of input positions strictly greater
than t * stride (for stride 1 these are exactly the positions beyond t):
causal mode left-pads K-1 zeros, pads nothing on the right, and applies the
valid-mode sliding window. -/
theorem causal_no_lookahead (cfg : Config) (w : BuiltLayer)
    (shp : Nat × Nat × Nat) (y1 y2 : T3) (t : Nat)
    (hp : cfg.padding = Padding.causal)
    (hagree : ∀ b u c, u ≤ t * cfg.strides →
      logicalIn cfg y1 b u c = logicalIn cfg y2 b u c) :
    forwardAtPos cfg w shp y1 t = forwardAtPos cfg w shp y2 t := by
  by_cases hch : (logicalDims cfg shp).2.2 = w.channels
  · rw [forwardAtPos_eq_call cfg w shp y1 t hch,
        forwardAtPos_eq_call cfg w shp y2 t hch]
    exact call_pos_agree cfg w (logicalDims cfg shp).2.1 _ _ t hp hagree
  · unfold forwardAtPos forward
    rw [if_pos hch, if_pos hch]

/-- C5 counterexample: with stride 2, the two inputs agree on every
position up to 1 yet the causal outputs at position 1 differ, so output
position t is not a function of input positions up to t alone. -/
theorem causal_claim_fails_at_stride_two :
    (∀ b u c, u ≤ 1 → y5a b u c = y5b b u c) ∧
    forwardAtPos cfg5 w5 (1, 3, 1) y5a 1 ≠ forwardAtPos cfg5 w5 (1, 3, 1) y5b 1 := by
  constructor
  · intro b u c hu
    unfold y5a y5b
    rw [if_neg (by omega)]
  · intro h
    have h2 : (forwardAtPos cfg5 w5 (1, 3, 1) y5a 1).map (fun f => f 0 0) =
        (forwardAtPos cfg5 w5 (1, 3, 1) y5b 1).map (fun f => f 0 0) := by rw [h]
    have ha : (forwardAtPos cfg5 w5 (1, 3, 1) y5a 1).map (fun f => f 0 0) =
        Except.ok 2 := rfl
    have hb : (forwardAtPos cfg5 w5 (1, 3, 1) y5b 1).map (fun f => f 0 0) =
        Except.ok 5 := rfl
    rw [ha, hb] at h2
    exact absurd (Except.ok.inj h2) (by decide)

/-- Witness for C5's amended theorem: with stride 2, modifying positions
beyond t * stride = 2 leaves the causal output at position 1 unchanged. -/
theorem causal_no_lookahead_witness :
    forwardAtPos cfg5 w5 (1, 5, 1) y6a 1 = forwardAtPos cfg5 w5 (1, 5, 1) y6b 1 :=
  causal_no_lookahead cfg5 w5 (1, 5, 1) y6a y6b 1 rfl (by
    intro b u c hu
    have hu2 : u ≤ 2 := by simpa [cfg5] using hu
    show y6a b u c = y6b b u c
    unfold y6a y6b
    rw [if_neg (by omega)])

theorem forwardAtChan_eq_call (cfg : Config) (w : BuiltLayer)
    (shp : Nat × Nat × Nat) (y : T3) (j : Nat)
    (hch : (logicalDims cfg shp).2.2 = w.channels) :
    forwardAtChan cfg w shp y j =
      (call cfg w (logicalDims cfg shp).2.1 (logicalIn cfg y)).map
        (fun p => fun b t => p.2 b t j) := by
  unfold forwardAtChan forward
  rw [if_neg (by simp [hch])]
  cases hc : call cfg w (logicalDims cfg shp).2.1 (logicalIn cfg y) with
  | error e => rfl
  | ok p =>
      obtain ⟨n, f⟩ := p
      simp [Except.map, logicalOut_rawOut]

theorem call_chan_agree (cfg : Config) (w1 w2 : BuiltLayer) (L : Nat)
    (x : T3) (j : Nat)
    (hc : cfg.common_kernel = false)
    (hbs : w1.bias.isSome = w2.bias.isSome)
    (hker : ∀ k m, w1.depthwise_kernel k (j / cfg.depth_multiplier) m =
      w2.depthwise_kernel k (j / cfg.depth_multiplier) m)
    (hbv : biasFn w1 j = biasFn w2 j) :
    (call cfg w1 L x).map (fun p => fun b t => p.2 b t j) =
      (call cfg w2 L x).map (fun p => fun b t => p.2 b t j) := by
  have hred : ∀ b t, dwReduce cfg L w1.depthwise_kernel x b t j =
      dwReduce cfg L w2.depthwise_kernel x b t j := by
    intro b t
    unfold dwReduce
    apply Finset.sum_congr rfl
    intro k _
    rw [hker k (j % cfg.depth_multiplier)]
  unfold call
  rw [effectiveWeights_sep cfg w1 hc, effectiveWeights_sep cfg w2 hc]
  dsimp only
  by_cases hg : opPadding cfg = Padding.valid ∧ paddedLen cfg L + 1 < cfg.kernel_size
  · rw [if_pos hg, if_pos hg]
  · rw [if_neg hg, if_neg hg]
    unfold biasAdd
    cases hub : cfg.use_bias with
    | false =>
        simp only [Bool.false_eq_true, if_false, Except.map]
        rw [applyActivation_eq, applyActivation_eq]
        exact congrArg _ (funext fun b => funext fun t => by
          dsimp only
          rw [hred b t])
    | true =>
        cases hb1 : w1.bias with
        | none =>
            cases hb2 : w2.bias with
            | none => rfl
            | some b2 => rw [hb1, hb2] at hbs; simp at hbs
        | some b1 =>
            cases hb2 : w2.bias with
            | none => rw [hb1, hb2] at hbs; simp at hbs
            | some b2 =>
                have hbj : b1 j = b2 j := by
                  have := hbv
                  rw [biasFn, biasFn, hb1, hb2] at this
                  exact this
                simp only [if_true, Except.map]
                rw [applyActivation_eq, applyActivation_eq]
                exact congrArg _ (funext fun b => funext fun t => by
                  dsimp only
                  rw [hred b t, hbj])

/-- C3: for a built operator with common_kernel = false, perturbing only the
kernel slice and bias entries belonging to input channel c changes no output
channel outside [c*M, (c+1)*M): every other channel of the forward result is
exactly unchanged. -/
theorem channel_independence (cfg : Config) (w1 w2 : BuiltLayer)
    (shp : Nat × Nat × Nat) (y : T3) (c j : Nat)
    (hc : cfg.common_kernel = false)
    (hch12 : w1.channels = w2.channels)
    (hbs : w1.bias.isSome = w2.bias.isSome)
    (hker : ∀ k c2 m, c2 ≠ c → w1.depthwise_kernel k c2 m = w2.depthwise_kernel k c2 m)
    (hbias : ∀ i, i < c * cfg.depth_multiplier ∨ (c + 1) * cfg.depth_multiplier ≤ i →
      biasFn w1 i = biasFn w2 i)
    (hj1 : j < w1.channels * cfg.depth_multiplier)
    (hj2 : j < c * cfg.depth_multiplier ∨ (c + 1) * cfg.depth_multiplier ≤ j) :
    forwardAtChan cfg w1 shp y j = forwardAtChan cfg w2 shp y j := by
  have hM : 0 < cfg.depth_multiplier := by
    rcases Nat.eq_zero_or_pos cfg.depth_multiplier with h0 | h0
    · rw [h0, Nat.mul_zero] at hj1; omega
    · exact h0
  have hdj : j / cfg.depth_multiplier ≠ c := by
    rcases hj2 with hlt | hge
    · have : j / cfg.depth_multiplier < c :=
        (Nat.div_lt_iff_lt_mul hM).mpr (by omega)
      omega
    · have : c + 1 ≤ j / cfg.depth_multiplier :=
        (Nat.le_div_iff_mul_le hM).mpr (by omega)
      omega
  by_cases hch : (logicalDims cfg shp).2.2 = w1.channels
  · rw [forwardAtChan_eq_call cfg w1 shp y j hch,
        forwardAtChan_eq_call cfg w2 shp y j (by rw [← hch12]; exact hch)]
    exact call_chan_agree cfg w1 w2 (logicalDims cfg shp).2.1 (logicalIn cfg y) j hc hbs
      (fun k m => hker k _ m hdj) (hbias j hj2)
  · have hch2 : (logicalDims cfg shp).2.2 ≠ w2.channels := by rw [← hch12]; exact hch
    unfold forwardAtChan forward
    rw [if_pos hch, if_pos hch2]

/-- Witness for C3: perturbing the channel-1 kernel slice leaves output
channel 0 unchanged. -/
theorem channel_independence_witness :
    forwardAtChan cfgA wP1 (1, 3, 2) yA 0 = forwardAtChan cfgA wP2 (1, 3, 2) yA 0 := by
  have hker : ∀ k c2 m, c2 ≠ 1 →
      wP1.depthwise_kernel k c2 m = wP2.depthwise_kernel k c2 m := by
    intro k c2 m h
    simp [wP1, wP2, h]
  exact channel_independence cfgA wP1 wP2 (1, 3, 2) yA 1 0 rfl rfl rfl hker
    (fun i _ => rfl) (by decide) (by decide)

/-- C7: build raises a shape error exactly when the input shape does not
have rank 3 or its layout-selected channel dimension is unknown; otherwise
it records the channel count, allocates a (K, kernel_dim, M) kernel with
kernel_dim = 1 iff common_kernel, allocates a (kernel_dim * M,) bias iff
use_bias, and marks the operator built. -/
theorem build_spec (cfg : Config) (s : List (Option Nat)) :
    ((∃ e, build cfg s = Except.error e) ↔
      (s.length ≠ 3 ∨ pyGet s (channel_axis cfg) = some none)) ∧
    (∀ r, build cfg s = Except.ok r →
      ∃ ch, pyGet s (channel_axis cfg) = some (some ch) ∧
        r.channels = ch ∧
        r.kernel_shape = (cfg.kernel_size,
          if cfg.common_kernel = true then 1 else ch, cfg.depth_multiplier) ∧
        r.bias_shape = (if cfg.use_bias = true then
          some ((if cfg.common_kernel = true then 1 else ch) *
            cfg.depth_multiplier) else none) ∧
        r.built = true) := by
  by_cases hl : s.length = 3
  · obtain ⟨a, b, cv, rfl⟩ := List.length_eq_three.mp hl
    have hax : pyGet [a, b, cv] (channel_axis cfg) =
        some (match cfg.data_format with
              | DataFormat.channels_first => b
              | DataFormat.channels_last => cv) := by
      cases hdf : cfg.data_format <;> simp [pyGet, channel_axis, hdf]
    cases hdf : cfg.data_format with
    | channels_first =>
        rw [hdf] at hax
        cases hb : b with
        | none =>
            rw [hb] at hax
            constructor
            · simp [build, hax]
            · intro r hr
              rw [build] at hr
              simp [hax] at hr
        | some dim =>
            rw [hb] at hax
            constructor
            · simp [build, hax]
            · intro r hr
              simp [build, hax] at hr
              subst hr
              exact ⟨dim, hax, rfl, rfl, by simp, rfl⟩
    | channels_last =>
        rw [hdf] at hax
        cases hv : cv with
        | none =>
            rw [hv] at hax
            constructor
            · simp [build, hax]
            · intro r hr
              rw [build] at hr
              simp [hax] at hr
        | some dim =>
            rw [hv] at hax
            constructor
            · simp [build, hax]
            · intro r hr
              simp [build, hax] at hr
              subst hr
              exact ⟨dim, hax, rfl, rfl, by simp, rfl⟩
  · constructor
    · constructor
      · intro _
        exact Or.inl hl
      · intro _
        rw [build, if_pos hl]
        exact ⟨_, rfl⟩
    · intro r hr
      rw [build, if_pos hl] at hr
      cases hr

/-- Witness for C7: a rank-2 shape is rejected, the shape (2, 10, 3) under
channels_last builds a layer with 3 channels, a (2, 3, 1) kernel and a
(3,) bias. -/
theorem build_spec_witness :
    (∃ e, build cfgA [some 2, some 10] = Except.error e) ∧
    build cfgA [some 2, some 10, some 3] = Except.ok
      { channels := 3, kernel_shape := (2, 3, 1), bias_shape := some 3,
        built := true } :=
  ⟨(build_spec cfgA [some 2, some 10]).1.mpr (Or.inl (by decide)), rfl⟩

/-- C2: the shape-inference method never returns a shape on a fully known
rank-3 input shape — it raises TypeError for every configuration, because
the 1-tuples self.kernel_size and self.strides reach the integer
subtraction in conv_output_length — while the forward computation on the
concrete shape (2, 10, 3) with kernel size 3 and stride 1 produces a tensor
of shape (2, 8, 3); shape inference therefore never agrees with forward. -/
theorem compute_output_shape_type_error :
    (∀ cfg : Config, ∀ dB dL dC : Int,
      compute_output_shape cfg (PyVal.pyint dB, PyVal.pyint dL, PyVal.pyint dC) =
        Except.error "TypeError: unsupported operand type(s) for -") ∧
    (∃ f, forward cfgA3 wA3 (2, 10, 3) yA = Except.ok ((2, 8, 3), f)) := by
  constructor
  · intro cfg dB dL dC
    cases hdf : cfg.data_format <;>
      simp [compute_output_shape, hdf, pyMul, conv_output_length, pySub,
        bind, Except.bind]
  · exact ⟨_, rfl⟩

/-- C9: configuration serialization never returns the configuration — every
call fails with a NameError, because the method body references the
undefined name DepthwiseConv2D instead of DepthwiseConv1D. -/
theorem get_config_name_error (cfg : Config) :
    get_config cfg = Except.error "NameError: name DepthwiseConv2D is not defined" := rfl

end DWConv
